import Mathlib

/-!
# Verification of the Expense Tracker authentication/OTP module

Shallow embedding of `expense_tracker/authorization.py` and the two
algorithmically relevant client functions of `expense_tracker/app.py`
(the `register_step2` form handler and `update_expense`), together with
proofs about the specification's claims on them.

Modelling conventions:
* The external Redis database is an association list from string keys to
  string values carrying a TTL in seconds; `setex` overwrites, `get` returns
  the value of a live key, `delete` removes the key.  Expiry of a key is
  modelled as its absence, as the spec does ("absent or expired key").
* The module-global client `r` is an `Option Client` threaded explicitly.
  Crucially, line 41 builds the client with the misspelled keyword
  `decode_response=True` (redis-py's parameter is `decode_responses`):
  redis-py defers unknown kwargs to lazy connection construction, so
  `from_url` returns normally and every later command on that client raises
  `TypeError` before any network I/O.  Since line 41 binds `r` before
  `r.ping()` and the `except` clause only prints, the module can only ever
  hold `r = None` (when `from_url` itself raised on a missing or malformed
  `REDIS_URL`) or that broken client — never a working one.  The model keeps
  a `connected` state for the decoded-string client the code means to build,
  in order to embed the otherwise dead branches of lines 54-77, and proves
  that module initialization never produces it.
* `randint(100000, 999999)` is modelled by passing the drawn number `n` as an
  explicit argument.
* Python `str` on an `int` is Lean `toString`; both produce the same decimal
  notation.  Python truthiness of a string (`if not stored_otp`) is the
  explicit test against the empty string.
* Raising an exception is `Except.error`; a function that cannot raise is a
  total Lean function into a non-`Except` type.
-/

/-- One Redis value together with the TTL (in seconds) it was set with. -/
structure Entry where
  value : String
  ttl : Nat
deriving DecidableEq, Repr

/-- Contents of the external Redis database, in the decoded-string view the
source means to operate on (`decode_responses=True` is the spelling line 41
intends; see `Client` for what line 41 actually builds).  An association
list from keys to entries; the head shadows later bindings for the same
key, matching last-write-wins. -/
structure Store where
  entries : List (String × Entry)
deriving DecidableEq, Repr

/-- `r.setex(key, timedelta(seconds=ttl), value)` on a working client:
store `value` under `key` with time-to-live `ttl` seconds, overwriting any
previous binding. -/
def Store.setex (s : Store) (key : String) (ttl : Nat) (value : String) : Store :=
  ⟨(key, ⟨value, ttl⟩) :: s.entries.filter (fun kv => kv.1 != key)⟩

/-- `r.get(key)` on a working decoded-string client: the stored string, or
`None`. -/
def Store.get (s : Store) (key : String) : Option String :=
  (s.entries.find? (fun kv => kv.1 == key)).map (fun kv => kv.2.value)

/-- The TTL the live binding of `key` was set with, if any. -/
def Store.ttlOf (s : Store) (key : String) : Option Nat :=
  (s.entries.find? (fun kv => kv.1 == key)).map (fun kv => kv.2.ttl)

/-- `r.delete(key)` on a working client: remove the binding of `key`. -/
def Store.del (s : Store) (key : String) : Store :=
  ⟨s.entries.filter (fun kv => kv.1 != key)⟩

/-- `redis_key = f"otp:{email}"` (authorization.py lines 55 and 65). -/
def otpKey (email : String) : String :=
  "otp:" ++ email

/-- A Python exception escaping one of the module's functions. -/
inductive PyError where
  /-- `raise Exception(msg)` (authorization.py line 52). -/
  | exception (msg : String)
  /-- The `TypeError: unexpected keyword argument` that redis-py raises when
  the lazily built `Connection` receives the misspelled `decode_response`
  kwarg of line 41; every command on that client fails this way before any
  network I/O. -/
  | typeError
deriving DecidableEq, Repr

/-- The module-global Redis client `r` as a value (authorization.py lines
37-47).  Line 41 calls `redis.from_url(redis_url, decode_response=True)`:
the keyword is misspelled (redis-py's parameter is `decode_responses`), and
redis-py stores unknown kwargs for lazy `Connection` construction, so
`from_url` returns normally and every later command on the client —
starting with `r.ping()` on line 43 — raises `TypeError`.  The `broken`
state is that client.  The `connected` state is the working decoded-string
client over database `s` that the code means to build; no execution of
lines 39-47 produces it (see `module_init`), and it is kept only to embed
the otherwise dead branches of lines 54-77. -/
inductive Client where
  | broken
  | connected (s : Store)
deriving DecidableEq, Repr

/-- The module-load connection logic (authorization.py lines 35-47):
`r = None`; `r = redis.from_url(redis_url, decode_response=True)`;
`r.ping()`; `except` clause that only prints.  `urlParses` records whether
`from_url` itself succeeded — it raises only when `REDIS_URL` is absent or
malformed, before the misspelled kwarg is ever used.  Because `r` is bound
before `ping()` raises and the `except` clause only prints, the reachable
states of `r` are exactly `None` and the broken client: a failed connection
attempt does NOT leave `r = None`, and a working client is unreachable. -/
def module_init (urlParses : Bool) : Option Client :=
  match urlParses with
  | true => some Client.broken
  | false => none

/-- `generate_otp(email, expire_minutes=5)` (authorization.py lines 49-58).
`conn` is the module-global client `r`; `n` is the value drawn by
`randint(100000, 999999)` on line 54.  With `r = None` the function raises
`Exception("Redis client is not connected.")` (lines 51-52).  With the
broken client of line 41, `r.setex` raises `TypeError` at connection
construction, before anything is stored.  Only on the `connected` client —
which `module_init` never produces — would the decimal string of the OTP be
stored under `otp:{email}` for `60 * expire_minutes` seconds and the OTP
returned. -/
def generate_otp (email : String) (n : Nat) (conn : Option Client)
    (expire_minutes : Nat := 5) : Except PyError (Nat × Option Client) :=
  match conn with
  | none => .error (.exception "Redis client is not connected.")
  | some Client.broken => .error .typeError
  | some (Client.connected s) =>
      .ok (n, some (Client.connected
        (s.setex (otpKey email) (60 * expire_minutes) (toString n))))

/-- `verify_otp(email, otp_input)` (authorization.py lines 60-77).
With `r = None` it returns `False` (lines 62-63).  With the broken client of
line 41, `r.get` raises `TypeError` at connection construction, before any
value is read or compared.  The `connected` branch — dead code, since
`module_init` never produces that state — embeds lines 65-77: the Python
falsiness test `if not stored_otp` is true for `None` and for the empty
string; `str` on an already decoded string value is the identity; on a
match the key is deleted and `True` returned. -/
def verify_otp (email : String) (otp_input : Int) (conn : Option Client) :
    Except PyError (Bool × Option Client) :=
  match conn with
  | none => .ok (false, none)
  | some Client.broken => .error .typeError
  | some (Client.connected s) =>
      let redis_key := otpKey email
      match s.get redis_key with
      | none => .ok (false, some (Client.connected s))
      | some stored_otp =>
          if stored_otp = "" then .ok (false, some (Client.connected s))
          else if stored_otp ≠ toString otp_input then
            .ok (false, some (Client.connected s))
          else .ok (true, some (Client.connected (s.del redis_key)))

/-- The JWT claim set built by `create_access_token`:
`{"sub": str(user_id), "exp": utcnow() + timedelta(minutes=expire_time)}`.
Time is in seconds since an arbitrary epoch. -/
structure TokenPayload where
  sub : String
  exp : Nat
deriving DecidableEq, Repr

/-- `create_access_token(user_id, expire_time=30)` (authorization.py lines
25-32), with the call time `now` made explicit.  `jwt.encode` signs the
claim set without changing it, and the signature always verifies for tokens
this module minted, so a token is modelled by its claim set. -/
def create_access_token (user_id : Int) (now : Nat) (expire_time : Nat := 30) :
    TokenPayload :=
  { sub := toString user_id, exp := now + expire_time * 60 }

/-- Modelled from the spec: JWT decoding (the `jose` library; no decode call
appears in `src/`, only the encode side).  Per the spec, decoding a token
this module signed yields its claim set while the process clock has not
passed the encoded expiry, and fails once it has. -/
def jwt_decode (token : TokenPayload) (now : Nat) : Option TokenPayload :=
  if token.exp < now then none else some token

/-- Modelled from the spec: a salted bcrypt password hash (passlib's
`CryptContext` is not in `src/`).  Per spec section 4.1 the digest is
determined by salt and plaintext, modelled as collision-free (the
idealization under which the spec states its round-trip property). -/
structure HashedPassword where
  salt : Nat
  digest : Nat × String
deriving DecidableEq, Repr

/-- `hash_password(password)` (authorization.py lines 19-20) with the salt
drawn at hash time made an explicit argument. -/
def hash_password (password : String) (salt : Nat) : HashedPassword :=
  { salt := salt, digest := (salt, password) }

/-- `verify_password(plain_password, hashed_password)` (authorization.py
lines 22-23): recompute the digest under the stored salt and compare. -/
def verify_password (plain_password : String) (hashed_password : HashedPassword) :
    Bool :=
  hashed_password.digest == (hashed_password.salt, plain_password)

/-- What the `register_step2` form submission handler does: issue the
network call `verify_otp_and_register(email, otp, password)`, or stop with
`st.error(msg)`, or stop with `st.warning(msg)`. -/
inductive RegAction where
  | networkCall (email : String) (otp : String) (password : String)
  | showError (msg : String)
  | showWarning (msg : String)
deriving DecidableEq, Repr

/-- The `if submit_reg:` body of the registration form (app.py lines
269-284).  `if otp and reg_password:` is Python truthiness on strings
(non-empty). -/
def register_step2 (reg_email otp reg_password confirm_password : String) :
    RegAction :=
  if otp ≠ "" ∧ reg_password ≠ "" then
    if reg_password = confirm_password then
      .networkCall reg_email otp reg_password
    else
      .showError "Passwords do not match"
  else
    .showWarning "Please fill in all fields"

/-- The JSON body `data` built by `update_expense`: a field is `none` when
the corresponding key is absent from the dict.  The amount is a `Rat`
(Python float arithmetic plays no role: the value is only tested for
truthiness and forwarded). -/
structure UpdatePayload where
  category : Option String
  amount : Option Rat
  date : Option String
deriving DecidableEq

/-- The payload construction of `update_expense(expense_id, category=None,
amount=None, expense_date=None)` (app.py lines 156-162).  `if category:`
skips `None` and `""`; `if amount:` skips `None` and `0`; `if expense_date:`
skips only `None` (a Python `date` object is always truthy), and
`isoformat` is applied by the caller of this model. -/
def update_expense (category : Option String) (amount : Option Rat)
    (expense_date : Option String) : UpdatePayload :=
  { category :=
      match category with
      | some c => if c ≠ "" then some c else none
      | none => none
    amount :=
      match amount with
      | some a => if a ≠ 0 then some a else none
      | none => none
    date := expense_date }

/-! ## Store lemmas -/

theorem Store.get_setex_self (s : Store) (k : String) (t : Nat) (v : String) :
    (s.setex k t v).get k = some v := by
  simp [Store.get, Store.setex, List.find?]

theorem Store.ttlOf_setex_self (s : Store) (k : String) (t : Nat) (v : String) :
    (s.setex k t v).ttlOf k = some t := by
  simp [Store.ttlOf, Store.setex, List.find?]

theorem Store.get_del_self (s : Store) (k : String) :
    (s.del k).get k = none := by
  have hnone : (s.del k).entries.find? (fun kv => kv.1 == k) = none := by
    rw [List.find?_eq_none]
    intro kv hmem
    have h := (List.mem_filter.mp hmem).2
    simp only [bne_iff_ne, ne_eq] at h
    simp [h]
  simp [Store.get, hnone]

/-! ## Decimal strings

The source compares `str(stored_otp) != str(otp_input)`; these lemmas give
the two facts about decimal notation the dead-code branch needs: a decimal
string is never empty, and distinct numbers have distinct decimal strings. -/

theorem toDigitsCore_ne_nil (b : Nat) (f : Nat) :
    ∀ (n : Nat) (ds : List Char), ds ≠ [] → Nat.toDigitsCore b f n ds ≠ [] := by
  induction f with
  | zero => intro n ds h; simpa [Nat.toDigitsCore] using h
  | succ f ih =>
      intro n ds h
      simp only [Nat.toDigitsCore]
      by_cases h0 : n / b = 0
      · simp [h0]
      · simp only [h0, if_false]
        exact ih _ _ (by simp)

theorem toDigits_ne_nil (n : Nat) : Nat.toDigits 10 n ≠ [] := by
  simp only [Nat.toDigits, Nat.toDigitsCore]
  by_cases h0 : n / 10 = 0
  · simp [h0]
  · simp only [h0, if_false]
    exact toDigitsCore_ne_nil _ _ _ _ (by simp)

theorem asString_eq_empty {l : List Char} (h : l.asString = "") : l = [] :=
  congrArg String.data h

theorem nat_repr_ne_empty (n : Nat) : Nat.repr n ≠ "" := by
  intro h
  exact toDigits_ne_nil n (asString_eq_empty h)

theorem digitChar_toNat : ∀ r : Nat, r < 10 → (Nat.digitChar r).toNat = 48 + r := by
  decide

theorem foldl_toDigitsCore (f : Nat) :
    ∀ (n : Nat) (ds : List Char), n < f →
      (Nat.toDigitsCore 10 f n ds).foldl (fun a c => 10 * a + (c.toNat - 48)) 0 =
        ds.foldl (fun a c => 10 * a + (c.toNat - 48)) n := by
  induction f with
  | zero => intro n ds h; omega
  | succ f ih =>
      intro n ds h
      have hd : (Nat.digitChar (n % 10)).toNat - 48 = n % 10 := by
        rw [digitChar_toNat (n % 10) (Nat.mod_lt n (by omega))]
        omega
      simp only [Nat.toDigitsCore]
      by_cases h0 : n / 10 = 0
      · have hn : n < 10 := by omega
        simp only [h0, if_true, List.foldl]
        rw [hd, Nat.mod_eq_of_lt hn]
        norm_num
      · have hlt : n / 10 < f := by omega
        simp only [h0, if_false]
        rw [ih (n / 10) _ hlt]
        simp only [List.foldl]
        rw [hd, Nat.div_add_mod]

theorem foldl_toDigits (n : Nat) :
    (Nat.toDigits 10 n).foldl (fun a c => 10 * a + (c.toNat - 48)) 0 = n := by
  simpa [Nat.toDigits] using foldl_toDigitsCore (n + 1) n [] (by omega)

theorem nat_repr_injective : Function.Injective Nat.repr := by
  intro m n h
  have hl : Nat.toDigits 10 m = Nat.toDigits 10 n := congrArg String.data h
  have hm := foldl_toDigits m
  rw [hl, foldl_toDigits n] at hm
  exact hm.symm

theorem toString_int_ofNat (n : Nat) : toString (Int.ofNat n) = Nat.repr n := rfl

theorem toString_nat (n : Nat) : toString n = Nat.repr n := rfl

theorem toString_int_ne_empty (i : Int) : toString i ≠ "" := by
  cases i with
  | ofNat n => exact nat_repr_ne_empty n
  | negSucc n =>
      intro h
      have heq : toString (Int.negSucc n) = "-" ++ toString (n + 1) := rfl
      rw [heq] at h
      have hlen := congrArg String.length h
      rw [String.length_append] at hlen
      simp only [String.length_empty, Nat.add_eq_zero] at hlen
      exact absurd hlen.1 (by decide)

/-! ## Unfolding lemmas for the dead `connected` branch of verify_otp -/

theorem verify_otp_connected (email : String) (otp_input : Int) (s : Store) :
    verify_otp email otp_input (some (Client.connected s)) =
      match s.get (otpKey email) with
      | none => .ok (false, some (Client.connected s))
      | some stored_otp =>
          if stored_otp = "" then .ok (false, some (Client.connected s))
          else if stored_otp ≠ toString otp_input then
            .ok (false, some (Client.connected s))
          else .ok (true, some (Client.connected (s.del (otpKey email)))) := rfl

theorem verify_otp_connected_of_get_none (email : String) (i : Int) (s : Store)
    (h : s.get (otpKey email) = none) :
    verify_otp email i (some (Client.connected s)) =
      .ok (false, some (Client.connected s)) := by
  rw [verify_otp_connected, h]

theorem verify_otp_connected_of_get_eq (email : String) (i : Int) (s : Store)
    (h : s.get (otpKey email) = some (toString i)) :
    verify_otp email i (some (Client.connected s)) =
      .ok (true, some (Client.connected (s.del (otpKey email)))) := by
  simp only [verify_otp_connected, h]
  rw [if_neg (toString_int_ne_empty i)]
  rw [if_neg (fun hc => hc rfl)]

theorem verify_otp_connected_of_get_ne (email : String) (i : Int) (s : Store)
    (v : String) (hget : s.get (otpKey email) = some v)
    (hne : v ≠ toString i) :
    verify_otp email i (some (Client.connected s)) =
      .ok (false, some (Client.connected s)) := by
  simp only [verify_otp_connected, hget]
  by_cases hv : v = ""
  · rw [if_pos hv]
  · rw [if_neg hv, if_pos hne]

/-! ## Intended-client semantics (dead code)

These lemmas record what lines 49-77 do over the `connected` client the
module means to build (and never does): they show the OTP lifecycle the spec
describes is exactly what the source's logic implements, supporting the
reading that the claims state the intent and the connection code has the
bug. -/

theorem connected_verify_otp_iff (email : String) (otp_input : Int) (s : Store) :
    ((verify_otp email otp_input (some (Client.connected s)) =
        .ok (true, some (Client.connected (s.del (otpKey email))))) ↔
      s.get (otpKey email) = some (toString otp_input)) ∧
    (s.del (otpKey email)).get (otpKey email) = none := by
  refine ⟨?_, Store.get_del_self s (otpKey email)⟩
  cases hget : s.get (otpKey email) with
  | none =>
      rw [verify_otp_connected_of_get_none email otp_input s hget]
      simp
  | some v =>
      by_cases hne : v = toString otp_input
      · subst hne
        rw [verify_otp_connected_of_get_eq email otp_input s hget]
        simp
      · rw [verify_otp_connected_of_get_ne email otp_input s v hget hne]
        simp [hne]

theorem connected_otp_verify_once (email : String) (n : Nat) (s : Store) :
    ∃ s1 : Store,
      generate_otp email n (some (Client.connected s)) =
        .ok (n, some (Client.connected s1)) ∧
      verify_otp email (Int.ofNat n) (some (Client.connected s1)) =
        .ok (true, some (Client.connected (s1.del (otpKey email)))) ∧
      verify_otp email (Int.ofNat n)
          (some (Client.connected (s1.del (otpKey email)))) =
        .ok (false, some (Client.connected (s1.del (otpKey email)))) := by
  refine ⟨s.setex (otpKey email) 300 (toString n), rfl, ?_, ?_⟩
  · apply verify_otp_connected_of_get_eq
    rw [toString_int_ofNat, ← toString_nat]
    exact Store.get_setex_self s (otpKey email) 300 (toString n)
  · exact verify_otp_connected_of_get_none email (Int.ofNat n) _
      (Store.get_del_self _ _)

theorem connected_regenerate_distinct (email : String) (n1 n2 : Nat) (s : Store)
    (hne : n1 ≠ n2) :
    ∃ s1 s2 : Store,
      generate_otp email n1 (some (Client.connected s)) =
        .ok (n1, some (Client.connected s1)) ∧
      generate_otp email n2 (some (Client.connected s1)) =
        .ok (n2, some (Client.connected s2)) ∧
      verify_otp email (Int.ofNat n1) (some (Client.connected s2)) =
        .ok (false, some (Client.connected s2)) := by
  refine ⟨_, _, rfl, rfl, ?_⟩
  have hget := Store.get_setex_self (s.setex (otpKey email) 300 (toString n1))
    (otpKey email) 300 (toString n2)
  have hne2 : toString n2 ≠ toString (Int.ofNat n1) := by
    rw [toString_int_ofNat, toString_nat]
    intro h
    exact hne (nat_repr_injective h).symm
  exact verify_otp_connected_of_get_ne email (Int.ofNat n1) _ (toString n2)
    hget hne2

theorem connected_regenerate_collision :
    ∃ s1 s2 : Store,
      generate_otp "a@b.com" 123456 (some (Client.connected ⟨[]⟩)) =
        .ok (123456, some (Client.connected s1)) ∧
      generate_otp "a@b.com" 123456 (some (Client.connected s1)) =
        .ok (123456, some (Client.connected s2)) ∧
      ∃ c, verify_otp "a@b.com" 123456 (some (Client.connected s2)) =
        .ok (true, c) := by
  refine ⟨⟨[("otp:a@b.com", ⟨"123456", 300⟩)]⟩,
    ⟨[("otp:a@b.com", ⟨"123456", 300⟩)]⟩, rfl, rfl, ?_⟩
  refine ⟨some (Client.connected
    (Store.del ⟨[("otp:a@b.com", ⟨"123456", 300⟩)]⟩ (otpKey "a@b.com"))), ?_⟩
  apply verify_otp_connected_of_get_eq
  decide

/-! ## Claims -/

/-- C1 (code bug): on every client state the module can actually reach —
`r = None` when `redis.from_url` itself raised, otherwise the broken client
of line 41 — `verify_otp` raises `TypeError` or returns false; it can never
return true, whatever the email, the submitted code, or the contents of the
external database.  This refutes the claimed "returns true iff the stored
string equals `str(otp_input)`" for the program as written; the
`connected_verify_otp_iff` lemma shows the claim is exactly right for the
client the code meant to build. -/
theorem verify_otp_never_true (email : String) (otp_input : Int) :
    verify_otp email otp_input (module_init true) = .error .typeError ∧
    verify_otp email otp_input (module_init false) = .ok (false, none) ∧
    ∀ urlParses : Bool, module_init urlParses = none ∨
      module_init urlParses = some Client.broken := by
  refine ⟨rfl, rfl, ?_⟩
  intro urlParses
  cases urlParses
  · exact Or.inl rfl
  · exact Or.inr rfl

/-- C2 (code bug): `generate_otp` raises in every reachable client state —
`TypeError` from the broken client of line 41, or the explicit exception
when `r` is `None` — so the program never stores a code with a 5-minute TTL
and never returns one, for any email, draw, or TTL argument. -/
theorem generate_otp_never_stores (email : String) (n m : Nat) :
    generate_otp email n (module_init true) m = .error .typeError ∧
    generate_otp email n (module_init false) m =
      .error (.exception "Redis client is not connected.") :=
  ⟨rfl, rfl⟩

/-- C3 (code bug): the generate-then-verify-twice scenario cannot begin: in
every reachable client state the first step, `generate_otp`, raises instead
of returning a code.  (`connected_otp_verify_once` shows the scenario would
hold — verify succeeds exactly once — over the client the code meant to
build.) -/
theorem otp_roundtrip_unrealizable (email : String) (n : Nat) (urlParses : Bool) :
    ∃ e, generate_otp email n (module_init urlParses) = .error e := by
  cases urlParses
  · exact ⟨.exception "Redis client is not connected.", rfl⟩
  · exact ⟨.typeError, rfl⟩

/-- C4 (code bug): neither the first nor the second generation can return a
code: both calls raise in every reachable client state (`r` is module-global
and a raised call does not rebind it, so the second call sees the same
state).  The claimed generate-generate-verify scenario therefore never
occurs.  Even over the intended client the claim would further need the two
drawn codes to differ: `connected_regenerate_collision` shows equal draws
leave the old code verifying, while `connected_regenerate_distinct` shows
distinct draws do invalidate it. -/
theorem regenerate_unrealizable (email : String) (n1 n2 : Nat) (urlParses : Bool) :
    (∃ e, generate_otp email n1 (module_init urlParses) = .error e) ∧
    (∃ e, generate_otp email n2 (module_init urlParses) = .error e) := by
  cases urlParses
  · exact ⟨⟨.exception "Redis client is not connected.", rfl⟩,
      ⟨.exception "Redis client is not connected.", rfl⟩⟩
  · exact ⟨⟨.typeError, rfl⟩, ⟨.typeError, rfl⟩⟩

/-- C5 (code bug): the failure semantics the claim states hold only in the
`r = None` state, which arises only when `from_url` itself raises (absent or
malformed `REDIS_URL`).  In the scenario the claim describes — the store
unreachable at startup — line 41 has already bound `r` to the broken
non-`None` client and the `except` clause only prints, so `verify_otp`
raises `TypeError` instead of returning false and `generate_otp` raises
`TypeError`, not the explicit "Redis client is not connected." error. -/
theorem fail_closed_violated (email : String) (otp_input : Int) (n m : Nat) :
    module_init true = some Client.broken ∧
    verify_otp email otp_input (some Client.broken) = .error .typeError ∧
    generate_otp email n (some Client.broken) m = .error .typeError ∧
    verify_otp email otp_input none = .ok (false, none) ∧
    generate_otp email n none m =
      .error (.exception "Redis client is not connected.") :=
  ⟨rfl, rfl, rfl, rfl, rfl⟩

/-- C6: a token minted by `create_access_token(user_id, expire_time)` carries
subject `str(user_id)` and expiry `now + expire_time * 60` seconds, decodes
to exactly that claim set while the clock has not passed the expiry, and
fails to decode once the clock passes it. -/
theorem access_token_spec (user_id : Int) (expire_time now t : Nat) :
    (create_access_token user_id now expire_time).sub = toString user_id ∧
    (create_access_token user_id now expire_time).exp = now + expire_time * 60 ∧
    (t ≤ now + expire_time * 60 →
      jwt_decode (create_access_token user_id now expire_time) t =
        some (create_access_token user_id now expire_time)) ∧
    (now + expire_time * 60 < t →
      jwt_decode (create_access_token user_id now expire_time) t = none) := by
  have hexp : (create_access_token user_id now expire_time).exp =
      now + expire_time * 60 := rfl
  refine ⟨rfl, rfl, ?_, ?_⟩
  · intro h
    unfold jwt_decode
    rw [hexp, if_neg (by omega)]
  · intro h
    unfold jwt_decode
    rw [hexp, if_pos (by omega)]

/-- C6 witness: user 7, issued at time 0 with the default 30 minutes,
decodes at 1800 s and fails at 1801 s. -/
theorem access_token_spec_witness :
    (create_access_token 7 0 30).sub = toString (7 : Int) ∧
    jwt_decode (create_access_token 7 0 30) 1800 =
      some (create_access_token 7 0 30) ∧
    jwt_decode (create_access_token 7 0 30) 1801 = none :=
  ⟨(access_token_spec 7 30 0 1800).1,
    (access_token_spec 7 30 0 1800).2.2.1 (by decide),
    (access_token_spec 7 30 0 1801).2.2.2 (by decide)⟩

/-- C7: for all plaintexts `p`, `q` and salts, `verify_password(p,
hash_password(p))` is true, and `verify_password(p, hash_password(q))` is
false whenever `p ≠ q` (in the collision-free model of bcrypt). -/
theorem password_roundtrip (p q : String) (salt1 salt2 : Nat) (hne : p ≠ q) :
    verify_password p (hash_password p salt1) = true ∧
    verify_password p (hash_password q salt2) = false := by
  constructor
  · simp [verify_password, hash_password]
  · simp only [verify_password, hash_password, beq_eq_false_iff_ne, ne_eq,
      Prod.mk.injEq, not_and]
    intro _ h
    exact hne h.symm

/-- C7 witness: plaintexts `"a"` and `"b"` with salts 0 and 1. -/
theorem password_roundtrip_witness :
    verify_password "a" (hash_password "a" 0) = true ∧
    verify_password "a" (hash_password "b" 1) = false :=
  password_roundtrip "a" "b" 0 1 (by decide)

/-- C8: whenever the entered password and the confirmation differ, the
registration form handler never issues the network call
`verify_otp_and_register`, and (when both OTP and password fields are
non-empty, so the mismatch branch is reached) it shows the error
"Passwords do not match". -/
theorem register_mismatch_no_call (reg_email otp reg_password confirm_password :
      String) (hne : reg_password ≠ confirm_password) :
    (∀ e o p, register_step2 reg_email otp reg_password confirm_password ≠
      RegAction.networkCall e o p) ∧
    (otp ≠ "" → reg_password ≠ "" →
      register_step2 reg_email otp reg_password confirm_password =
        RegAction.showError "Passwords do not match") := by
  constructor
  · intro e o p
    unfold register_step2
    by_cases hc : otp ≠ "" ∧ reg_password ≠ ""
    · rw [if_pos hc, if_neg hne]
      exact fun h => RegAction.noConfusion h
    · rw [if_neg hc]
      exact fun h => RegAction.noConfusion h
  · intro h1 h2
    unfold register_step2
    rw [if_pos ⟨h1, h2⟩, if_neg hne]

/-- C8 witness: OTP `"123456"`, password `"x"`, confirmation `"y"`. -/
theorem register_mismatch_no_call_witness :
    (∀ e o p, register_step2 "a@b.com" "123456" "x" "y" ≠
      RegAction.networkCall e o p) ∧
    ("123456" ≠ "" → "x" ≠ "" →
      register_step2 "a@b.com" "123456" "x" "y" =
        RegAction.showError "Passwords do not match") :=
  register_mismatch_no_call "a@b.com" "123456" "x" "y" (by decide)

/-- C9 (code bug): the claim's scenario — store connected, a code stored,
wrong guess returns false with the key intact — runs through `r.get`, which
raises `TypeError` on the only non-`None` client the module can hold, before
any value is read or compared; with `r = None` the function returns false
without consulting any store.  The third conjunct records the dead-code
intent: over the `connected` client the code meant to build, a mismatched
stored code does return false and leaves the store untouched. -/
theorem wrong_guess_raises (email : String) (otp_input : Int) (s : Store)
    (v : String) :
    verify_otp email otp_input (module_init true) = .error .typeError ∧
    verify_otp email otp_input (module_init false) = .ok (false, none) ∧
    (s.get (otpKey email) = some v → v ≠ toString otp_input →
      verify_otp email otp_input (some (Client.connected s)) =
        .ok (false, some (Client.connected s))) :=
  ⟨rfl, rfl, fun hget hne =>
    verify_otp_connected_of_get_ne email otp_input s v hget hne⟩

/-- C9 witness: wrong guess 999999 against stored `"123456"`. -/
theorem wrong_guess_raises_witness :
    verify_otp "a@b.com" 999999 (module_init true) = .error .typeError ∧
    verify_otp "a@b.com" 999999
        (some (Client.connected ⟨[("otp:a@b.com", ⟨"123456", 300⟩)]⟩)) =
      .ok (false, some (Client.connected ⟨[("otp:a@b.com", ⟨"123456", 300⟩)]⟩)) :=
  ⟨(wrong_guess_raises "a@b.com" 999999
      ⟨[("otp:a@b.com", ⟨"123456", 300⟩)]⟩ "123456").1,
    (wrong_guess_raises "a@b.com" 999999
      ⟨[("otp:a@b.com", ⟨"123456", 300⟩)]⟩ "123456").2.2 (by decide) (by decide)⟩

/-- C10: `update_expense` omits every falsy argument from the payload — a
category of `None` or `""`, an amount of `None` or `0`, a date of `None` —
so in particular the amount field of the payload is never `0`. -/
theorem update_expense_omits_falsy (c : Option String) (a : Option Rat)
    (d : Option String) :
    (update_expense c (some 0) d).amount = none ∧
    (update_expense c none d).amount = none ∧
    (update_expense (some "") a d).category = none ∧
    (update_expense none a d).category = none ∧
    (update_expense c a none).date = none ∧
    (update_expense c a d).amount ≠ some 0 := by
  refine ⟨by simp [update_expense], by simp [update_expense],
    by simp [update_expense], by simp [update_expense],
    by simp [update_expense], ?_⟩
  unfold update_expense
  cases a with
  | none => simp
  | some x =>
      by_cases hx : x = 0
      · simp [hx]
      · simp [hx]

/-- C10 witness: concrete category, amount and date. -/
theorem update_expense_omits_falsy_witness :
    (update_expense (some "Food") (some 0) (some "2024-01-01")).amount = none ∧
    (update_expense (some "Food") none (some "2024-01-01")).amount = none ∧
    (update_expense (some "") (some 5) (some "2024-01-01")).category = none ∧
    (update_expense none (some 5) (some "2024-01-01")).category = none ∧
    (update_expense (some "Food") (some 5) none).date = none ∧
    (update_expense (some "Food") (some 5) (some "2024-01-01")).amount ≠
      some 0 :=
  update_expense_omits_falsy (some "Food") (some 5) (some "2024-01-01")
